import Mathlib

/-!
Verification development for the resume-to-job matching engine of the
repository (class JobMatcher in src/job_matcher_simple.py).

The Python code is shallowly embedded over Lean types: Python strings
become Lean String values (modelled at the level of their character
lists, ASCII semantics), Python floats become rationals, Python lists
become Lean lists, and the small regular expressions used by the matcher
are hand-compiled into executable character-list scanners that follow
the leftmost-search, greedy-with-backtracking semantics of re.search.

Two pieces of the pipeline are abstracted, as documented at their
definitions: the TF-IDF cosine description similarity (computed by the
external sklearn library) is carried as a rational field of the job
record, and the regex skill-extraction front end is represented by
passing the extracted skill lists directly (all claims quantify over
arbitrary skill lists, which covers every possible extraction output).
-/

/-- ASCII model of the Python whitespace class (str.split, str.strip,
and the regex class for whitespace): space, tab, newline, carriage
return, vertical tab, form feed. -/
def isSpaceChar (c : Char) : Bool :=
  c = ' ' ∨ c = '\t' ∨ c = '\n' ∨ c = '\r' ∨ c = Char.ofNat 11 ∨ c = Char.ofNat 12

/-- ASCII decimal digit, the regex digit class. -/
def isDigitChar (c : Char) : Bool :=
  48 ≤ c.toNat ∧ c.toNat ≤ 57

/-- ASCII model of Python str.lower on a single character. -/
def lowerChar (c : Char) : Char :=
  if 65 ≤ c.toNat ∧ c.toNat ≤ 90 then Char.ofNat (c.toNat + 32) else c

/-- ASCII model of Python str.lower. -/
def pyLower (s : String) : String :=
  ⟨s.data.map lowerChar⟩

/-- Whether the first list is a prefix of the second (start of a regex
literal or of a Python startswith test). -/
def listStartsWith : List Char → List Char → Bool
  | [], _ => true
  | _ :: _, [] => false
  | a :: xs, b :: ys => a = b && listStartsWith xs ys

/-- Whether needle occurs as a contiguous substring of the second list;
model of the Python `in` test on strings. -/
def containsSub (needle : List Char) : List Char → Bool
  | [] => needle.isEmpty
  | c :: rest => listStartsWith needle (c :: rest) || containsSub needle rest

/-- Model of Python str.count: number of non-overlapping occurrences of
needle, scanning from the left. -/
def countSub (needle : List Char) (hay : List Char) : ℕ :=
  match hay with
  | [] => 0
  | c :: rest =>
    if h : needle ≠ [] ∧ listStartsWith needle (c :: rest) then
      1 + countSub needle (rest.drop (needle.length - 1))
    else
      countSub needle rest
termination_by hay.length
decreasing_by
  · simp only [List.length_drop, List.length_cons]
    omega
  · simp only [List.length_cons]
    omega

/-- Model of Python str.strip with no arguments, on character lists. -/
def pyStripChars (l : List Char) : List Char :=
  (((l.dropWhile isSpaceChar).reverse.dropWhile isSpaceChar).reverse)

/-- Model of Python str.strip with no arguments. -/
def pyStrip (s : String) : String :=
  ⟨pyStripChars s.data⟩

/-- Model of Python str.split with no arguments: split on runs of
whitespace, discarding empty pieces. -/
def splitWS (l : List Char) : List (List Char) :=
  match l with
  | [] => []
  | c :: rest =>
    if isSpaceChar c then splitWS rest
    else
      (c :: rest.takeWhile (fun x => ¬ isSpaceChar x)) ::
        splitWS (rest.drop (rest.takeWhile (fun x => ¬ isSpaceChar x)).length)
termination_by l.length
decreasing_by
  · simp only [List.length_cons]
    omega
  · simp only [List.length_drop, List.length_cons]
    omega

/-- Value of a digit run, as computed by Python int(). -/
def natOfDigits (ds : List Char) : ℕ :=
  ds.foldl (fun n c => n * 10 + (c.toNat - 48)) 0

/-- Leftmost-match scanner: try the pattern matcher at every start
position from the left, as re.search does. -/
def scanOpt {α : Type} (f : List Char → Option α) : List Char → Option α
  | [] => f []
  | c :: rest =>
    match f (c :: rest) with
    | some x => some x
    | none => scanOpt f rest

/-!
Hand-compiled models of the regular expressions used by the matcher.
Each matcher below decides a match of the pattern anchored at the start
of its input (the role of re.search at one candidate position); scanOpt
turns it into the leftmost search that re.search performs.  Greedy
repetition with backtracking is compiled away where the following
literal makes the repetition deterministic, and kept as an explicit
ordered choice where it is not.
-/

/-- Anchored match of the job-side years pattern
digits, optional plus sign, whitespace, then year or yr or years
(source line 233).  The captured group is the digit run; the third
alternative is subsumed by the first for match existence. -/
def matchYearsAt (l : List Char) : Option ℕ :=
  let ds := l.takeWhile isDigitChar
  if ds.isEmpty then none
  else
    let r := l.drop ds.length
    let r := match r with
      | '+' :: t => t
      | _ => r
    let r := r.dropWhile isSpaceChar
    if listStartsWith "year".data r || listStartsWith "yr".data r then
      some (natOfDigits ds)
    else none

/-- Shared tail of the three resume-side experience patterns: digits,
optional plus sign, whitespace, then the year word alternation, with a
continuation run on the rest after each alternative. -/
def digitsYearAlt (cont : List Char → Bool) (l : List Char) : Option ℕ :=
  let ds := l.takeWhile isDigitChar
  if ds.isEmpty then none
  else
    let r := l.drop ds.length
    let r := match r with
      | '+' :: t => t
      | _ => r
    let r := r.dropWhile isSpaceChar
    if (listStartsWith "year".data r && cont (r.drop 4)) ||
       (listStartsWith "yr".data r && cont (r.drop 2)) ||
       (listStartsWith "years".data r && cont (r.drop 5)) then
      some (natOfDigits ds)
    else none

/-- Anchored match of resume pattern one (source line 243): digits,
optional plus, whitespace, year word, whitespace, optional of, the
literal experience. -/
def matchR1At (l : List Char) : Option ℕ :=
  digitsYearAlt
    (fun rest =>
      let r3 := rest.dropWhile isSpaceChar
      (listStartsWith "of".data r3 &&
        (¬ ((r3.drop 2).takeWhile isSpaceChar).isEmpty) &&
        listStartsWith "experience".data ((r3.drop 2).dropWhile isSpaceChar)) ||
      listStartsWith "experience".data r3)
    l

/-- Anchored match of resume pattern two (source line 244): the literal
experience, whitespace, optional of, then digits and the year word. -/
def matchR2At (l : List Char) : Option ℕ :=
  if listStartsWith "experience".data l then
    let r := l.drop 10
    if ((r.takeWhile isSpaceChar).isEmpty) then none
    else
      let r2 := r.dropWhile isSpaceChar
      let tailPart := fun (x : List Char) => digitsYearAlt (fun _ => true) x
      if listStartsWith "of".data r2 &&
         ¬ (((r2.drop 2).takeWhile isSpaceChar).isEmpty) then
        match tailPart ((r2.drop 2).dropWhile isSpaceChar) with
        | some v => some v
        | none => tailPart r2
      else tailPart r2
  else none

/-- Anchored match of resume pattern three (source line 245): digits,
whitespace, year word, whitespace, the literal in.  The source pattern
has no plus sign after the digits; digitsYearAlt allows one, which is
harmless here because a plus cannot be followed by the year word in a
way this pattern distinguishes, but to stay exact we inline the
plus-free variant. -/
def matchR3At (l : List Char) : Option ℕ :=
  let ds := l.takeWhile isDigitChar
  if ds.isEmpty then none
  else
    let r := (l.drop ds.length).dropWhile isSpaceChar
    let cont := fun (rest : List Char) =>
      (¬ (rest.takeWhile isSpaceChar).isEmpty) &&
      listStartsWith "in".data (rest.dropWhile isSpaceChar)
    if (listStartsWith "year".data r && cont (r.drop 4)) ||
       (listStartsWith "yr".data r && cont (r.drop 2)) ||
       (listStartsWith "years".data r && cont (r.drop 5)) then
      some (natOfDigits ds)
    else none

/-- One backtracking attempt of a greedy captured class: at offset j,
the capture is the maximal run of characters outside the class bad,
and must be nonempty. -/
def captureAt (bad : Char → Bool) (r : List Char) (j : ℕ) : Option (List Char) :=
  match r.drop j with
  | [] => none
  | c :: rest =>
    if bad c then none
    else some ((c :: rest).takeWhile (fun x => ¬ bad x))

/-- Backtracking over how much leading whitespace the repetition
consumes: offsets are tried greedily from j down to jlo. -/
def tryCapture (bad : Char → Bool) (r : List Char) (jlo : ℕ) : ℕ → Option (List Char)
  | 0 => if jlo = 0 then captureAt bad r 0 else none
  | j + 1 =>
    if j + 1 < jlo then none
    else
      match captureAt bad r (j + 1) with
      | some cap => some cap
      | none => tryCapture bad r jlo j

/-- Anchored match of the first location pattern (source line 288): the
literal location, whitespace, a colon, whitespace, then a captured run
of characters other than newline. -/
def matchL1At (l : List Char) : Option (List Char) :=
  if listStartsWith "location".data l then
    let r := l.drop 8
    match r.dropWhile isSpaceChar with
    | ':' :: r3 =>
      tryCapture (fun c => c = '\n') r3 0 ((r3.takeWhile isSpaceChar).length)
    | _ => none
  else none

/-- Anchored match of the second and third location patterns (source
lines 289 and 290): a literal, at least one whitespace character, then
a captured run of characters other than newline and comma. -/
def matchLocAfter (lit : List Char) (l : List Char) : Option (List Char) :=
  if listStartsWith lit l then
    let r := l.drop lit.length
    tryCapture (fun c => c = '\n' ∨ c = ',') r 1 ((r.takeWhile isSpaceChar).length)
  else none

/-- The resume-location loop of calculate_location_match (source lines
287 to 297): search the three patterns in order, return the stripped
first capture. -/
def searchResumeLocation (l : List Char) : Option (List Char) :=
  match scanOpt matchL1At l with
  | some cap => some (pyStripChars cap)
  | none =>
    match scanOpt (matchLocAfter "based in".data) l with
    | some cap => some (pyStripChars cap)
    | none =>
      match scanOpt (matchLocAfter "located in".data) l with
      | some cap => some (pyStripChars cap)
      | none => none

/-!
The matcher itself (class JobMatcher, src/job_matcher_simple.py).
Scores are rationals; the Python code computes the same arithmetic on
floats whose values here are all exactly representable.
-/

/-- The synonym dictionary self.skill_synonyms (source lines 54 to 69),
as the list of its value lists; the code only ever asks whether two
names belong to one value list. -/
def skill_synonyms : List (List String) :=
  [["python", "python3", "python programming"],
   ["javascript", "js", "ecmascript"],
   ["react", "react.js", "reactjs"],
   ["aws", "amazon web services"],
   ["docker", "containerization"],
   ["kubernetes", "k8s"],
   ["sql", "structured query language"],
   ["mongodb", "mongo"],
   ["postgresql", "postgres"],
   ["git", "version control"],
   ["agile", "scrum", "kanban"],
   ["ci/cd", "continuous integration", "continuous deployment"],
   ["rest", "restful", "rest api"],
   ["graphql", "graph ql"]]

/-- JobMatcher._are_skills_synonyms (source lines 165 to 183): equal
after lowering, or both in one synonym list, or one contained in the
other with both longer than three characters. -/
def are_skills_synonyms (skill1 skill2 : String) : Bool :=
  let s1 := pyLower skill1
  let s2 := pyLower skill2
  if s1 = s2 then true
  else if skill_synonyms.any (fun syns => s1 ∈ syns ∧ s2 ∈ syns) then true
  else if containsSub s1.data s2.data ∨ containsSub s2.data s1.data then
    decide (s1.length > 3 ∧ s2.length > 3)
  else false

/-- JobMatcher.calculate_skill_match (source lines 138 to 163).  The
matched set accumulates, per the two loops, the exact lowercase
intersection together with every resume skill and every job skill that
has a synonym partner on the other side; the score is that set size
over the length of the lowered job list, times 100, capped at 100. -/
def calculate_skill_match (resume_skills job_skills : List String) : ℚ :=
  if resume_skills.isEmpty ∨ job_skills.isEmpty then 0
  else
    let rl := resume_skills.map pyLower
    let jl := job_skills.map pyLower
    let matched : Finset String :=
      (rl.toFinset ∩ jl.toFinset) ∪
        (rl.filter (fun r => jl.any (fun j => are_skills_synonyms r j))).toFinset ∪
        (jl.filter (fun j => rl.any (fun r => are_skills_synonyms r j))).toFinset
    if jl.isEmpty then 0
    else min ((matched.card : ℚ) / (jl.length : ℚ) * 100) 100

/-- The title_keywords dictionary of calculate_title_match (source
lines 191 to 203), weights as exact rationals. -/
def title_keywords : List (String × ℚ) :=
  [("senior", 13/10), ("lead", 14/10), ("principal", 15/10),
   ("junior", 8/10), ("entry", 7/10), ("associate", 9/10),
   ("intern", 6/10), ("manager", 12/10), ("director", 14/10),
   ("vp", 15/10), ("cto", 16/10)]

/-- The seniority words looked for in the resume (source line 221). -/
def level_keywords : List String :=
  ["senior", "lead", "principal", "experienced", "expert"]

/-- JobMatcher.calculate_title_match (source lines 185 to 225): ten
points per job-title word longer than three characters occurring in the
lowered resume, plus twenty times the weight for each seniority keyword
of the title when the resume mentions any seniority level; capped at
100. -/
def calculate_title_match (resume_text job_title : String) : ℚ :=
  if job_title = "" ∨ resume_text = "" then 0
  else
    let resume_lower := pyLower resume_text
    let job_lower := pyLower job_title
    let base1 : ℚ :=
      (((splitWS job_lower.data).filter
          (fun w => w.length > 3 ∧ containsSub w resume_lower.data)).length : ℚ) * 10
    let base2 : ℚ :=
      (title_keywords.map (fun kw =>
        if containsSub kw.1.data job_lower.data ∧
           level_keywords.any (fun lv => containsSub lv.data resume_lower.data) then
          20 * kw.2
        else 0)).sum
    min (base1 + base2) 100

/-- JobMatcher.calculate_experience_match (source lines 227 to 265):
50 when the job states no requirement or no years pattern parses;
otherwise the required years are compared with years found in the
resume by the three patterns in order, falling back, when that gives
zero, to twice the count of the words experience and worked at, capped
at ten; full score when enough, else the ratio times 100.  The years
estimation loop (source lines 242 to 259) is the next definition. -/
def resumeExperienceYears (rl : List Char) : ℕ :=
  let found :=
    match scanOpt matchR1At rl with
    | some v => v
    | none =>
      match scanOpt matchR2At rl with
      | some v => v
      | none =>
        match scanOpt matchR3At rl with
        | some v => v
        | none => 0
  if found = 0 then
    min ((countSub "experience".data rl + countSub "worked at".data rl) * 2) 10
  else found

def calculate_experience_match (resume_text job_experience : String) : ℚ :=
  if job_experience = "" then 50
  else
    match scanOpt matchYearsAt (pyLower job_experience).data with
    | none => 50
    | some required_years =>
      let resume_years := resumeExperienceYears (pyLower resume_text).data
      if required_years ≤ resume_years then 100
      else (resume_years : ℚ) / (required_years : ℚ) * 100

/-- The relocation-openness keywords of calculate_location_match
(source line 279). -/
def location_keywords : List String :=
  ["relocate", "relocation", "remote", "work from home", "wfh", "anywhere", "open to"]

/-- The country terms of calculate_location_match (source line 305). -/
def us_terms : List String :=
  ["united states", "usa", "us", "america"]

/-- JobMatcher.calculate_location_match (source lines 267 to 315): 100
for remote jobs or blank, remote or anywhere locations; 75 when the
resume mentions a relocation keyword; otherwise a location is extracted
from the resume by three patterns, giving 60 when none is found, 90 or
40 on a country-term comparison, 95 on mutual containment, else 50. -/
def calculate_location_match (resume_text job_location : String) (is_remote : Bool) : ℚ :=
  if is_remote then 100
  else if job_location = "" ∨ pyLower job_location = "remote" ∨
          pyLower job_location = "anywhere" then 100
  else
    let resume_lower := pyLower resume_text
    if location_keywords.any (fun kw => containsSub kw.data resume_lower.data) then 75
    else
      match searchResumeLocation resume_lower.data with
      | none => 60
      | some locChars =>
        if locChars.isEmpty then 60
        else
          let resume_location : String := ⟨locChars⟩
          let job_loc_lower := pyLower job_location
          if us_terms.any (fun t => containsSub t.data job_loc_lower.data) then
            if us_terms.any
                (fun t => containsSub t.data (pyLower resume_location).data) then 90
            else 40
          else if containsSub (pyLower resume_location).data job_loc_lower.data ∨
                  containsSub job_loc_lower.data (pyLower resume_location).data then 95
          else 50

/-- The high_demand_skills dictionary of _calculate_skill_bonus (source
lines 399 to 411). -/
def high_demand_skills : List (String × ℚ) :=
  [("python", 5), ("machine learning", 5), ("ai", 5), ("aws", 4),
   ("docker", 4), ("kubernetes", 4), ("react", 3), ("typescript", 3),
   ("node.js", 3), ("sql", 2), ("git", 2)]

/-- JobMatcher._calculate_skill_bonus (source lines 393 to 429): points
for each high-demand skill on both sides, plus ten or five for at
least five or three exact overlaps, capped at 15. -/
def calculate_skill_bonus (resume_skills job_skills : List String) : ℚ :=
  if resume_skills.isEmpty ∨ job_skills.isEmpty then 0
  else
    let rl := resume_skills.map pyLower
    let jl := job_skills.map pyLower
    let bonus1 : ℚ :=
      (high_demand_skills.map (fun p => if p.1 ∈ rl ∧ p.1 ∈ jl then p.2 else 0)).sum
    let matched := rl.toFinset ∩ jl.toFinset
    let bonus2 : ℚ := if 5 ≤ matched.card then 10 else if 3 ≤ matched.card then 5 else 0
    min (bonus1 + bonus2) 15

/-- One job record as consumed by calculate_weighted_match_score.  The
skills field holds the output of extract_job_skills for this job; the
descScore field stands for the TF-IDF cosine similarity times 100
between resume and job description, computed by the external sklearn
library inside _calculate_description_similarity (source lines 372 to
391) and therefore kept abstract here.  Mathematically that similarity
lies in the unit interval (cosine of two componentwise nonnegative
vectors), and the exception fallback of the source returns 50, so its
value is constrained by hypotheses 0 to 100 where a claim needs it. -/
structure JobData where
  job_title : String
  skills : List String
  experience_level : String
  location_display : String
  is_remote : Bool
  descScore : ℚ
deriving DecidableEq

/-- JobMatcher.calculate_weighted_match_score with the default weight
dictionary (source lines 317 to 370): skills 40 percent, title 20,
description 25, experience 10, location 5, plus the skill bonus, capped
at 100.  The resume skill list parameter carries the output of
extract_resume_skills on the resume text; claims quantify over all its
values. -/
def calculate_weighted_match_score
    (resume_text : String) (resume_skills : List String) (job : JobData) : ℚ :=
  let skill_score := calculate_skill_match resume_skills job.skills
  let title_score := calculate_title_match resume_text job.job_title
  let description_score := job.descScore
  let experience_score := calculate_experience_match resume_text job.experience_level
  let location_score :=
    calculate_location_match resume_text job.location_display job.is_remote
  let weighted_score :=
    skill_score * (40/100) + title_score * (20/100) + description_score * (25/100) +
      experience_score * (10/100) + location_score * (5/100)
  min (weighted_score + calculate_skill_bonus resume_skills job.skills) 100

/-- One row of the input job collection of match_resume_to_jobs.  The
source iterates over a pandas frame of dynamically typed rows and wraps
the scoring of each row in try and except (source lines 467 to 497); a
row whose field types make the scoring raise (for instance a missing
value where a string is expected) is modelled by the malformed
constructor carrying the exception message. -/
inductive Job where
  | good : JobData → Job
  | malformed : String → Job
deriving DecidableEq

/-- Scoring one row, with the exception modelled in Except (source
lines 468 to 476, use_weighted_matching true as constructed by the
application). -/
def scoreJobE (resume_text : String) (resume_skills : List String) :
    Job → Except String ℚ
  | Job.good d => Except.ok (calculate_weighted_match_score resume_text resume_skills d)
  | Job.malformed msg => Except.error msg

/-- The scoring loop of match_resume_to_jobs (source lines 467 to 497):
every row gets a score, a raising row gets 0.0 and the loop goes on. -/
def computeScores (resume_text : String) (resume_skills : List String)
    (jobs : List Job) : List ℚ :=
  jobs.map (fun j =>
    match scoreJobE resume_text resume_skills j with
    | Except.ok s => s
    | Except.error _ => 0)

/-- categorize_score (source lines 515 to 525). -/
def categorize_score (score : ℚ) : String :=
  if 85 ≤ score then "Excellent Match"
  else if 70 ≤ score then "Strong Match"
  else if 55 ≤ score then "Good Match"
  else if 40 ≤ score then "Fair Match"
  else "Basic Match"

/-- One output row of match_resume_to_jobs: the job with its
match_score, match_rank and match_category columns. -/
structure MatchResult where
  job : Job
  score : ℚ
  rank : ℕ
  category : String
deriving DecidableEq

/-- Attach the 1-based rank and the category label to the i-th sorted
row (source lines 512 and 527). -/
def mkResult (p : ℕ × (Job × ℚ)) : MatchResult :=
  { job := p.2.1, score := p.2.2, rank := p.1 + 1,
    category := categorize_score p.2.2 }

/-- Ranking and labelling of the sorted rows. -/
def rankResults (l : List (Job × ℚ)) : List MatchResult :=
  l.enum.map mkResult

/-- sort_values on match_score with ascending False (source line 509):
sort so that scores are descending. -/
def sortByScoreDesc (l : List (Job × ℚ)) : List (Job × ℚ) :=
  List.insertionSort (fun a b => b.2 ≤ a.2) l

/-- JobMatcher.match_resume_to_jobs (source lines 431 to 550): empty
output for an empty job collection or a missing or short resume; else
score every row, keep the rows at or above min_score, sort descending
by score, rank from one, label, and return the first top_n rows.  The
confidence column and the match_details debugging column of the source
are not carried, no claim concerns them. -/
def matchResumeToJobs (resume_text : String) (resume_skills : List String)
    (jobs : List Job) (top_n : ℕ) (min_score : ℚ) : List MatchResult :=
  if jobs.isEmpty then []
  else if resume_text = "" ∨ (pyStrip resume_text).length < 50 then []
  else
    let scores := computeScores resume_text resume_skills jobs
    let filtered := (jobs.zip scores).filter (fun p => min_score ≤ p.2)
    (rankResults (sortByScoreDesc filtered)).take top_n

/-- Written from the words of claim C2, for refutation: score equals
the size of the intersection of resume and job skills, synonym pairs
counted in, over the number of job skills, times 100.  The intersection
of the claim is read as the set of job skills having an equal or
synonym-equivalent resume skill, the coverage reading of the spec. -/
def skill_match_spec_formula (resume_skills job_skills : List String) : ℚ :=
  if resume_skills.isEmpty ∨ job_skills.isEmpty then 0
  else
    let rl := resume_skills.map pyLower
    let jl := job_skills.map pyLower
    let inter :=
      (jl.toFinset).filter (fun j => rl.any (fun r => are_skills_synonyms r j) = true)
    (inter.card : ℚ) / (jl.toFinset.card : ℚ) * 100

/-- The set the code actually counts: every lowered skill of either
list having an equal or synonym-equivalent partner in the other list. -/
def synonym_matched_set (resume_skills job_skills : List String) : Finset String :=
  let rl := resume_skills.map pyLower
  let jl := job_skills.map pyLower
  (rl.filter (fun r => jl.any (fun j => are_skills_synonyms r j))).toFinset ∪
    (jl.filter (fun j => rl.any (fun r => are_skills_synonyms r j))).toFinset

/-- A minimal remote job record used to instantiate theorems on
concrete inputs. -/
def sampleJob : JobData :=
  { job_title := "", skills := [], experience_level := "",
    location_display := "", is_remote := true, descScore := 0 }

/-- A resume text of more than fifty non-blank characters, used to
instantiate theorems on concrete inputs. -/
def sampleResume : String :=
  "0123456789012345678901234567890123456789012345678901234567890"

/-- Two identical well-formed jobs: a batch that produces a tie. -/
def sampleJobs : List Job :=
  [Job.good sampleJob, Job.good sampleJob]

/-!
Range lemmas for the five sub-scores and the bonus, read off the
branches of each source function.
-/

theorem calculate_skill_match_bounds (R J : List String) :
    0 ≤ calculate_skill_match R J ∧ calculate_skill_match R J ≤ 100 := by
  unfold calculate_skill_match
  split
  · norm_num
  · dsimp only
    split
    · norm_num
    · exact ⟨le_min (by positivity) (by norm_num), min_le_right _ _⟩

theorem title_keywords_nonneg : ∀ p ∈ title_keywords, (0:ℚ) ≤ p.2 := by
  with_unfolding_all decide

theorem calculate_title_match_bounds (r t : String) :
    0 ≤ calculate_title_match r t ∧ calculate_title_match r t ≤ 100 := by
  unfold calculate_title_match
  split
  · norm_num
  · refine ⟨le_min ?_ (by norm_num), min_le_right _ _⟩
    have h1 : (0:ℚ) ≤
        (((splitWS (pyLower t).data).filter
          (fun w => w.length > 3 ∧ containsSub w (pyLower r).data)).length : ℚ) * 10 := by
      positivity
    have h2 : (0:ℚ) ≤
        (title_keywords.map (fun kw =>
          if containsSub kw.1.data (pyLower t).data ∧
             level_keywords.any (fun lv => containsSub lv.data (pyLower r).data) then
            20 * kw.2
          else 0)).sum := by
      apply List.sum_nonneg
      intro x hx
      rcases List.mem_map.mp hx with ⟨p, hp, rfl⟩
      split
      · have := title_keywords_nonneg p hp
        positivity
      · exact le_refl 0
    linarith

theorem calculate_experience_match_bounds (r e : String) :
    0 ≤ calculate_experience_match r e ∧ calculate_experience_match r e ≤ 100 := by
  unfold calculate_experience_match
  split
  · norm_num
  · split
    · norm_num
    · dsimp only
      split
      · norm_num
      · rename_i required _ hlt
        rw [not_le] at hlt
        have hr0 : (0:ℚ) < (required : ℚ) := by
          have : 0 < required := by omega
          exact_mod_cast this
        constructor
        · positivity
        · have hle : ((resumeExperienceYears (pyLower r).data : ℚ)) ≤ (required : ℚ) := by
            exact_mod_cast le_of_lt hlt
          have hone : ((resumeExperienceYears (pyLower r).data : ℚ)) / (required : ℚ) ≤ 1 := by
            rw [div_le_one hr0]
            exact hle
          nlinarith

theorem calculate_location_match_bounds (r l : String) (b : Bool) :
    0 ≤ calculate_location_match r l b ∧ calculate_location_match r l b ≤ 100 := by
  unfold calculate_location_match
  dsimp only
  repeat' split
  all_goals norm_num

theorem high_demand_skills_nonneg : ∀ p ∈ high_demand_skills, (0:ℚ) ≤ p.2 := by
  with_unfolding_all decide

theorem calculate_skill_bonus_bounds (R J : List String) :
    0 ≤ calculate_skill_bonus R J ∧ calculate_skill_bonus R J ≤ 15 := by
  unfold calculate_skill_bonus
  split
  · norm_num
  · refine ⟨le_min ?_ (by norm_num), min_le_right _ _⟩
    have h1 : (0:ℚ) ≤
        (high_demand_skills.map (fun p =>
          if p.1 ∈ R.map pyLower ∧ p.1 ∈ J.map pyLower then p.2 else 0)).sum := by
      apply List.sum_nonneg
      intro x hx
      rcases List.mem_map.mp hx with ⟨p, hp, rfl⟩
      split
      · exact high_demand_skills_nonneg p hp
      · exact le_refl 0
    have h2 : (0:ℚ) ≤
        (if 5 ≤ ((R.map pyLower).toFinset ∩ (J.map pyLower).toFinset).card then (10:ℚ)
         else if 3 ≤ ((R.map pyLower).toFinset ∩ (J.map pyLower).toFinset).card then 5
         else 0) := by
      repeat' split
      all_goals norm_num
    linarith

/-- Claim C1: for every resume text, every extracted resume skill list
and every job record whose abstracted description similarity lies in
its mathematical range from 0 to 100, the composite score of
calculate_weighted_match_score lies in the interval from 0 to 100, and
in the empty-skill-set boundary case the guarded skill sub-score is
0 on either side. -/
theorem claim_C1_score_bounds (resume_text : String) (resume_skills : List String)
    (job : JobData) (hd0 : 0 ≤ job.descScore) (hd1 : job.descScore ≤ 100) :
    (0 ≤ calculate_weighted_match_score resume_text resume_skills job ∧
      calculate_weighted_match_score resume_text resume_skills job ≤ 100) ∧
    (∀ J, calculate_skill_match [] J = 0) ∧
    (∀ R, calculate_skill_match R [] = 0) := by
  refine ⟨?_, fun J => by simp [calculate_skill_match],
    fun R => by simp [calculate_skill_match]⟩
  have hs := calculate_skill_match_bounds resume_skills job.skills
  have ht := calculate_title_match_bounds resume_text job.job_title
  have he := calculate_experience_match_bounds resume_text job.experience_level
  have hl := calculate_location_match_bounds resume_text job.location_display job.is_remote
  have hb := calculate_skill_bonus_bounds resume_skills job.skills
  unfold calculate_weighted_match_score
  dsimp only
  constructor
  · refine le_min ?_ (by norm_num)
    nlinarith [hs.1, ht.1, he.1, hl.1, hb.1]
  · exact min_le_right _ _

/-- Witness for claim C1 at a concrete resume and job. -/
theorem claim_C1_score_bounds_witness :
    (0 ≤ calculate_weighted_match_score sampleResume [] sampleJob ∧
      calculate_weighted_match_score sampleResume [] sampleJob ≤ 100) ∧
    (∀ J, calculate_skill_match [] J = 0) ∧
    (∀ R, calculate_skill_match R [] = 0) :=
  claim_C1_score_bounds sampleResume [] sampleJob
    (by with_unfolding_all decide) (by with_unfolding_all decide)

/-- Claim C10: the experience sub-score is exactly 50 whenever the job
experience requirement is absent or contains no parseable years
pattern, whatever the resume says. -/
theorem claim_C10_experience_default (resume_text job_experience : String)
    (h : job_experience = "" ∨ scanOpt matchYearsAt (pyLower job_experience).data = none) :
    calculate_experience_match resume_text job_experience = 50 := by
  unfold calculate_experience_match
  rcases h with h | h
  · simp [h]
  · simp [h]

/-- Witness for claim C10: a requirement with no years pattern. -/
theorem claim_C10_experience_default_witness :
    scanOpt matchYearsAt (pyLower "Senior level").data = none ∧
    calculate_experience_match "ten years of writing" "Senior level" = 50 :=
  ⟨by decide, claim_C10_experience_default "ten years of writing" "Senior level"
    (Or.inr (by decide))⟩

/-- Claim C8 is false as stated: a score of 84.9 is labelled Strong
Match by categorize_score, not the Good or Fair tier. -/
theorem claim_C8_counterexample :
    categorize_score (849/10) = "Strong Match" ∧
    categorize_score (849/10) ≠ "Good Match" ∧
    categorize_score (849/10) ≠ "Fair Match" := by
  with_unfolding_all decide

/-- Claim C8 amended: a score of 84.9 is labelled Strong Match, and the
label crosses to Excellent Match exactly at 85. -/
theorem claim_C8_amended (s : ℚ) :
    categorize_score (849/10) = "Strong Match" ∧
    categorize_score 85 = "Excellent Match" ∧
    (85 ≤ s → categorize_score s = "Excellent Match") ∧
    (s < 85 → categorize_score s ≠ "Excellent Match") := by
  refine ⟨by with_unfolding_all decide, by with_unfolding_all decide,
    fun h => by simp [categorize_score, h], fun h => ?_⟩
  unfold categorize_score
  rw [if_neg (not_le.mpr h)]
  repeat' split
  all_goals decide

/-- Witness for the amended claim C8 on both sides of the threshold. -/
theorem claim_C8_amended_witness :
    categorize_score 90 = "Excellent Match" ∧ categorize_score 84 ≠ "Excellent Match" :=
  ⟨(claim_C8_amended 90).2.2.1 (by norm_num), (claim_C8_amended 84).2.2.2 (by norm_num)⟩

/-- Claim C5 is false as stated: for a non-remote job with a concrete
location, a resume signalling openness to relocation scores 75, not
100. -/
theorem claim_C5_counterexample :
    calculate_location_match "I am open to relocation for the right role"
      "New York, NY" false = 75 ∧ (75 : ℚ) ≠ 100 := by
  constructor
  · with_unfolding_all decide
  · norm_num

/-- Claim C5 amended: a remote job scores 100 whatever the resume and
the stated location say; a non-remote job whose location is blank,
remote or anywhere also scores 100 whatever the resume says; and a
non-remote job with any other location scores 75, not 100, when the
resume mentions a relocation keyword. -/
theorem claim_C5_amended (resume_text job_location : String) :
    calculate_location_match resume_text job_location true = 100 ∧
    ((job_location = "" ∨ pyLower job_location = "remote" ∨
        pyLower job_location = "anywhere") →
      calculate_location_match resume_text job_location false = 100) ∧
    (job_location ≠ "" → pyLower job_location ≠ "remote" →
      pyLower job_location ≠ "anywhere" →
      location_keywords.any
        (fun kw => containsSub kw.data (pyLower resume_text).data) = true →
      calculate_location_match resume_text job_location false = 75) := by
  refine ⟨by simp [calculate_location_match], fun h => ?_, fun h1 h2 h3 h4 => ?_⟩
  · unfold calculate_location_match
    simp only [Bool.false_eq_true, if_false]
    rw [if_pos h]
  · have hcond : ¬ (job_location = "" ∨ pyLower job_location = "remote" ∨
        pyLower job_location = "anywhere") := by
      simp [h1, h2, h3]
    unfold calculate_location_match
    simp only [Bool.false_eq_true, if_false, hcond, ite_false]
    rw [if_pos h4]

/-- Witness for the amended claim C5: a remote job with a keyword-free
resume, a blank location with a keyword-free resume, and the 75 case
of the relocation keyword. -/
theorem claim_C5_amended_witness :
    calculate_location_match "nothing relevant here" "Paris" true = 100 ∧
    calculate_location_match "nothing relevant here" "" false = 100 ∧
    calculate_location_match "open to relocation" "Paris" false = 75 :=
  ⟨(claim_C5_amended "nothing relevant here" "Paris").1,
    (claim_C5_amended "nothing relevant here" "").2.1 (Or.inl rfl),
    (claim_C5_amended "open to relocation" "Paris").2.2 (by decide) (by decide)
      (by decide) (by decide)⟩

/-- Claim C9: a non-empty resume whose stripped length is below fifty
characters makes match_resume_to_jobs return the empty result set, the
same outcome as for a missing resume. -/
theorem claim_C9_short_resume (resume_text : String) (resume_skills : List String)
    (jobs : List Job) (top_n : ℕ) (min_score : ℚ)
    (h1 : resume_text ≠ "") (h2 : (pyStrip resume_text).length < 50) :
    matchResumeToJobs resume_text resume_skills jobs top_n min_score = [] := by
  unfold matchResumeToJobs
  split
  · rfl
  · rw [if_pos (Or.inr h2)]

/-- Witness for claim C9 at a concrete short resume. -/
theorem claim_C9_short_resume_witness :
    ("short resume" ≠ "") ∧ (pyStrip "short resume").length < 50 ∧
    matchResumeToJobs "short resume" [] [Job.good sampleJob] 10 0 = [] :=
  ⟨by decide, by decide,
    claim_C9_short_resume "short resume" [] [Job.good sampleJob] 10 0
      (by decide) (by decide)⟩

/-- Claim C7: a missing resume short-circuits to the empty result set,
and a row whose scoring raises is caught, given score 0 and the batch
continues: every row still receives a score. -/
theorem claim_C7_error_isolation (resume_text : String) (resume_skills : List String)
    (jobs : List Job) (top_n : ℕ) (min_score : ℚ) (i : ℕ) (msg : String)
    (hmal : jobs[i]? = some (Job.malformed msg)) :
    matchResumeToJobs "" resume_skills jobs top_n min_score = [] ∧
    (computeScores resume_text resume_skills jobs).length = jobs.length ∧
    (computeScores resume_text resume_skills jobs)[i]? = some 0 := by
  refine ⟨?_, by simp [computeScores], ?_⟩
  · unfold matchResumeToJobs
    split
    · rfl
    · rw [if_pos (Or.inl rfl)]
  · simp [computeScores, List.getElem?_map, hmal, scoreJobE]

/-- Witness for claim C7 with a one-row batch whose row raises. -/
theorem claim_C7_error_isolation_witness :
    matchResumeToJobs "" [] [Job.malformed "boom"] 5 0 = [] ∧
    (computeScores "resume text" [] [Job.malformed "boom"]).length = 1 ∧
    (computeScores "resume text" [] [Job.malformed "boom"])[0]? = some 0 :=
  claim_C7_error_isolation "resume text" [] [Job.malformed "boom"] 5 0 0 "boom"
    (by decide)

theorem are_skills_synonyms_self (s : String) : are_skills_synonyms s s = true := by
  simp [are_skills_synonyms]

/-- The set built by the two loops of calculate_skill_match coincides
with synonym_matched_set: the exact intersection is absorbed because
the synonym test holds on equal strings. -/
theorem matched_set_eq (R J : List String) :
    ((R.map pyLower).toFinset ∩ (J.map pyLower).toFinset) ∪
      ((R.map pyLower).filter
        (fun r => (J.map pyLower).any (fun j => are_skills_synonyms r j))).toFinset ∪
      ((J.map pyLower).filter
        (fun j => (R.map pyLower).any (fun r => are_skills_synonyms r j))).toFinset =
    synonym_matched_set R J := by
  unfold synonym_matched_set
  dsimp only
  ext x
  simp only [Finset.mem_union, Finset.mem_inter, List.mem_toFinset, List.mem_filter,
    List.any_eq_true]
  constructor
  · rintro ((⟨hr, hj⟩ | ⟨hr, j, hj, hsyn⟩) | ⟨hj, r, hr, hsyn⟩)
    · exact Or.inl ⟨hr, x, hj, are_skills_synonyms_self x⟩
    · exact Or.inl ⟨hr, j, hj, hsyn⟩
    · exact Or.inr ⟨hj, r, hr, hsyn⟩
  · rintro (⟨hr, j, hj, hsyn⟩ | ⟨hj, r, hr, hsyn⟩)
    · exact Or.inl (Or.inr ⟨hr, j, hj, hsyn⟩)
    · exact Or.inr ⟨hj, r, hr, hsyn⟩

/-- The skill sub-score in closed form, for non-empty skill lists. -/
theorem skill_match_formula (R J : List String) (hR : R ≠ []) (hJ : J ≠ []) :
    calculate_skill_match R J =
      min (((synonym_matched_set R J).card : ℚ) / ((J.length : ℚ)) * 100) 100 := by
  unfold calculate_skill_match
  rw [if_neg (by simp [List.isEmpty_iff, hR, hJ])]
  dsimp only
  rw [if_neg (by simp [List.isEmpty_iff, hJ])]
  rw [matched_set_eq, List.length_map]

/-- Claim C2 is false as stated: with resume skill reactjs against job
skills react and angular, only one of the two job skills has a synonym
match, so the formula of the claim gives 50, but the code counts both
sides of the synonym pair and returns 100. -/
theorem claim_C2_counterexample :
    calculate_skill_match ["reactjs"] ["react", "angular"] = 100 ∧
    skill_match_spec_formula ["reactjs"] ["react", "angular"] = 50 ∧
    (100 : ℚ) ≠ 50 := by
  refine ⟨by with_unfolding_all decide, by with_unfolding_all decide, by norm_num⟩

/-- Claim C2 amended: for non-empty skill lists the skill sub-score is
the size of the set of skills of either side that have an equal or
synonym-equivalent partner on the other side, divided by the job skill
count, times 100 and capped at 100; the two worked examples of the
claim hold as stated. -/
theorem claim_C2_amended (resume_skills job_skills : List String)
    (hR : resume_skills ≠ []) (hJ : job_skills ≠ []) :
    calculate_skill_match resume_skills job_skills =
      min (((synonym_matched_set resume_skills job_skills).card : ℚ) /
        ((job_skills.length : ℚ)) * 100) 100 ∧
    calculate_skill_match ["Python", "AWS", "Docker", "SQL"]
      ["Python", "AWS", "Docker", "SQL"] = 100 ∧
    calculate_skill_match ["Python", "AWS", "Docker", "SQL"]
      ["Python", "AWS", "Docker", "SQL", "Kubernetes"] = 80 :=
  ⟨skill_match_formula resume_skills job_skills hR hJ,
    by with_unfolding_all decide, by with_unfolding_all decide⟩

/-- Witness for the amended claim C2 at concrete skill lists. -/
theorem claim_C2_amended_witness :
    calculate_skill_match ["Python"] ["AWS"] =
      min (((synonym_matched_set ["Python"] ["AWS"]).card : ℚ) /
        (((["AWS"] : List String).length : ℚ)) * 100) 100 ∧
    calculate_skill_match ["Python", "AWS", "Docker", "SQL"]
      ["Python", "AWS", "Docker", "SQL"] = 100 ∧
    calculate_skill_match ["Python", "AWS", "Docker", "SQL"]
      ["Python", "AWS", "Docker", "SQL", "Kubernetes"] = 80 :=
  claim_C2_amended ["Python"] ["AWS"] (by decide) (by decide)

/-- Claim C6 is false as stated: the resume skill reactjs is synonym
matched with the job skill react, so both sides are already counted;
appending reactjs itself to the job list grows the denominator without
growing the matched set, and the skill sub-score drops from 50 to 40. -/
theorem claim_C6_counterexample :
    "reactjs" ∈ (["reactjs"] : List String) ∧
    calculate_skill_match ["reactjs"] ["react", "angular", "foo", "bar"] = 50 ∧
    calculate_skill_match ["reactjs"] ["react", "angular", "foo", "bar", "reactjs"] = 40 ∧
    ((40 : ℚ) < 50) := by
  refine ⟨by decide, by with_unfolding_all decide, by with_unfolding_all decide, by norm_num⟩

/-- Claim C6 amended: appending to the job skill list a resume skill
that is not yet synonym-equivalent (nor equal, after lowering) to any
existing job skill never decreases the skill sub-score. -/
theorem claim_C6_amended (resume_skills job_skills : List String) (s : String)
    (hs : s ∈ resume_skills)
    (hnew : ∀ j ∈ job_skills, are_skills_synonyms (pyLower s) (pyLower j) = false) :
    calculate_skill_match resume_skills job_skills ≤
      calculate_skill_match resume_skills (job_skills ++ [s]) := by
  have hR : resume_skills ≠ [] := List.ne_nil_of_mem hs
  rcases eq_or_ne job_skills [] with rfl | hJ
  · rw [show calculate_skill_match resume_skills [] = 0 from by
      simp [calculate_skill_match]]
    exact (calculate_skill_match_bounds _ _).1
  · have hsynrefl := are_skills_synonyms_self (pyLower s)
    have hsub : synonym_matched_set resume_skills job_skills ⊆
        synonym_matched_set resume_skills (job_skills ++ [s]) := by
      intro x hx
      simp only [synonym_matched_set, Finset.mem_union, List.mem_toFinset, List.mem_filter,
        List.any_eq_true, List.map_append, List.map_cons, List.map_nil,
        List.mem_append] at hx ⊢
      rcases hx with ⟨hxr, j, hj, hsyn⟩ | ⟨hxj, r, hr, hsyn⟩
      · exact Or.inl ⟨hxr, j, Or.inl hj, hsyn⟩
      · exact Or.inr ⟨Or.inl hxj, r, hr, hsyn⟩
    have hmem : pyLower s ∈ synonym_matched_set resume_skills (job_skills ++ [s]) := by
      simp only [synonym_matched_set, Finset.mem_union, List.mem_toFinset, List.mem_filter,
        List.any_eq_true, List.map_append, List.map_cons, List.map_nil,
        List.mem_append]
      exact Or.inl ⟨List.mem_map_of_mem pyLower hs,
        pyLower s, Or.inr (by simp), hsynrefl⟩
    have hnot : pyLower s ∉ synonym_matched_set resume_skills job_skills := by
      intro hx
      simp only [synonym_matched_set, Finset.mem_union, List.mem_toFinset, List.mem_filter,
        List.any_eq_true] at hx
      rcases hx with ⟨hxr, j, hj, hsyn⟩ | ⟨hxj, r, hr, hsyn⟩
      · rcases List.mem_map.mp hj with ⟨j0, hj0, rfl⟩
        rw [hnew j0 hj0] at hsyn
        cases hsyn
      · rcases List.mem_map.mp hxj with ⟨j0, hj0, hj0eq⟩
        have := hnew j0 hj0
        rw [hj0eq, hsynrefl] at this
        cases this
    have hcard : (synonym_matched_set resume_skills job_skills).card + 1 ≤
        (synonym_matched_set resume_skills (job_skills ++ [s])).card := by
      have hins := Finset.card_le_card
        (Finset.insert_subset_iff.mpr ⟨hmem, hsub⟩)
      rwa [Finset.card_insert_of_not_mem hnot] at hins
    rw [skill_match_formula resume_skills job_skills hR hJ,
      skill_match_formula resume_skills (job_skills ++ [s]) hR (by simp)]
    have hn : (0:ℚ) < (job_skills.length : ℚ) := by
      have : 0 < job_skills.length := List.length_pos.mpr hJ
      exact_mod_cast this
    have hm' : ((synonym_matched_set resume_skills job_skills).card : ℚ) + 1 ≤
        ((synonym_matched_set resume_skills (job_skills ++ [s])).card : ℚ) := by
      exact_mod_cast hcard
    rw [List.length_append, List.length_cons, List.length_nil]
    push_cast
    set m : ℚ := ((synonym_matched_set resume_skills job_skills).card : ℚ) with hmdef
    set m' : ℚ := ((synonym_matched_set resume_skills (job_skills ++ [s])).card : ℚ)
      with hm'def
    set n : ℚ := (job_skills.length : ℚ) with hndef
    have hm0 : 0 ≤ m := by positivity
    rcases le_or_lt n m with hge | hlt
    · have h100 : (100:ℚ) ≤ m' / (n + 1) * 100 := by
        have h1 : (1:ℚ) ≤ m' / (n + 1) := by
          rw [le_div_iff (by linarith)]
          linarith
        linarith
      rw [min_eq_right h100]
      exact min_le_right _ _
    · have hlhs : m / n * 100 ≤ 100 := by
        have h1 : m / n ≤ 1 := by
          rw [div_le_one hn]
          linarith
        linarith
      rw [min_eq_left hlhs]
      refine le_min ?_ hlhs
      have hstep : m / n ≤ m' / (n + 1) := by
        rw [div_le_div_iff hn (by linarith)]
        nlinarith
      linarith

/-- Witness for the amended claim C6: appending Python, unrelated to
Kubernetes, raises the score from 0 to 50. -/
theorem claim_C6_amended_witness :
    calculate_skill_match ["Python"] ["Kubernetes"] ≤
      calculate_skill_match ["Python"] (["Kubernetes"] ++ ["Python"]) :=
  claim_C6_amended ["Python"] ["Kubernetes"] "Python" (by decide)
    (by intro j hj; simp only [List.mem_singleton] at hj; subst hj; decide)

theorem sortByScoreDesc_sorted (l : List (Job × ℚ)) :
    List.Sorted (fun a b : Job × ℚ => b.2 ≤ a.2) (sortByScoreDesc l) := by
  haveI : IsTotal (Job × ℚ) (fun a b => b.2 ≤ a.2) := ⟨fun a b => le_total b.2 a.2⟩
  haveI : IsTrans (Job × ℚ) (fun a b => b.2 ≤ a.2) := ⟨fun a b c h1 h2 => le_trans h2 h1⟩
  exact List.sorted_insertionSort _ _

theorem rankResults_length (l : List (Job × ℚ)) : (rankResults l).length = l.length := by
  simp [rankResults]

theorem rankResults_getElem (l : List (Job × ℚ)) (i : ℕ) (h : i < (rankResults l).length) :
    (rankResults l)[i] =
      mkResult (i, l.get ⟨i, by simpa [rankResults_length] using h⟩) := by
  simp [rankResults, List.get_eq_getElem, List.getElem_enum]

/-- On a non-empty batch and a usable resume, match_resume_to_jobs is
the ranked, labelled prefix of the descending sort of the filtered
scored rows. -/
theorem matchResumeToJobs_main (resume_text : String) (resume_skills : List String)
    (jobs : List Job) (top_n : ℕ) (min_score : ℚ)
    (h1 : ¬ jobs.isEmpty = true)
    (h2 : ¬ (resume_text = "" ∨ (pyStrip resume_text).length < 50)) :
    matchResumeToJobs resume_text resume_skills jobs top_n min_score =
      (rankResults (sortByScoreDesc
        ((jobs.zip (computeScores resume_text resume_skills jobs)).filter
          (fun p => min_score ≤ p.2)))).take top_n := by
  unfold matchResumeToJobs
  rw [if_neg h1, if_neg h2]

/-- Any indexed output row of match_resume_to_jobs is the ranked
labelling of the row at the same index of the sorted filtered list. -/
theorem matchResumeToJobs_get_eq (rt : String) (rs : List String)
    (jobs : List Job) (tn : ℕ) (ms : ℚ) (i : ℕ) (r : MatchResult)
    (h : (matchResumeToJobs rt rs jobs tn ms)[i]? = some r) :
    ∃ hi : i < (sortByScoreDesc ((jobs.zip (computeScores rt rs jobs)).filter
        (fun p => ms ≤ p.2))).length,
      r = mkResult (i, (sortByScoreDesc ((jobs.zip (computeScores rt rs jobs)).filter
        (fun p => ms ≤ p.2))).get ⟨i, hi⟩) := by
  by_cases h1 : jobs.isEmpty = true
  · simp [matchResumeToJobs, h1] at h
  by_cases h2 : rt = "" ∨ (pyStrip rt).length < 50
  · simp [matchResumeToJobs, h1, h2] at h
  rw [matchResumeToJobs_main rt rs jobs tn ms h1 h2] at h
  rcases List.getElem?_eq_some_iff.mp h with ⟨hi, hget⟩
  have hiS : i < (sortByScoreDesc ((jobs.zip (computeScores rt rs jobs)).filter
      (fun p => ms ≤ p.2))).length := by
    simp only [List.length_take, rankResults_length] at hi
    omega
  refine ⟨hiS, ?_⟩
  rw [← hget, List.getElem_take]
  exact rankResults_getElem _ i (by simpa [rankResults_length] using hiS)

theorem matchResumeToJobs_rank_eq (rt : String) (rs : List String)
    (jobs : List Job) (tn : ℕ) (ms : ℚ) (i : ℕ) (r : MatchResult)
    (h : (matchResumeToJobs rt rs jobs tn ms)[i]? = some r) : r.rank = i + 1 := by
  rcases matchResumeToJobs_get_eq rt rs jobs tn ms i r h with ⟨hi, rfl⟩
  rfl

theorem matchResumeToJobs_score_mem (rt : String) (rs : List String)
    (jobs : List Job) (tn : ℕ) (ms : ℚ) (i : ℕ) (r : MatchResult)
    (h : (matchResumeToJobs rt rs jobs tn ms)[i]? = some r) :
    ms ≤ r.score ∧ r.category = categorize_score r.score := by
  rcases matchResumeToJobs_get_eq rt rs jobs tn ms i r h with ⟨hi, rfl⟩
  refine ⟨?_, rfl⟩
  have hmem := List.get_mem (sortByScoreDesc ((jobs.zip (computeScores rt rs jobs)).filter
      (fun p => ms ≤ p.2))) i hi
  simp only [sortByScoreDesc, List.mem_insertionSort] at hmem
  have h2 := (List.mem_filter.mp hmem).2
  simpa using h2

theorem matchResumeToJobs_desc (rt : String) (rs : List String)
    (jobs : List Job) (tn : ℕ) (ms : ℚ) (i j : ℕ) (ra rb : MatchResult)
    (hij : i ≤ j)
    (ha : (matchResumeToJobs rt rs jobs tn ms)[i]? = some ra)
    (hb : (matchResumeToJobs rt rs jobs tn ms)[j]? = some rb) :
    rb.score ≤ ra.score := by
  rcases matchResumeToJobs_get_eq rt rs jobs tn ms i ra ha with ⟨hi, rfl⟩
  rcases matchResumeToJobs_get_eq rt rs jobs tn ms j rb hb with ⟨hj, rfl⟩
  rcases eq_or_lt_of_le hij with rfl | hlt
  · exact le_refl _
  · have hpw : List.Pairwise (fun a b : Job × ℚ => b.2 ≤ a.2)
        (sortByScoreDesc ((jobs.zip (computeScores rt rs jobs)).filter
          (fun p => ms ≤ p.2))) :=
      sortByScoreDesc_sorted _
    have hrel := List.pairwise_iff_getElem.mp hpw i j
      (by simpa using hi) (by simpa using hj) hlt
    simpa [List.get_eq_getElem] using hrel

/-- Claim C4: every output row of match_resume_to_jobs scores at least
min_score and carries the category label of its score; ranks are the
positions plus one, so they run densely from 1; and scores are
descending along the ranks. -/
theorem claim_C4_output_contract (rt : String) (rs : List String)
    (jobs : List Job) (tn : ℕ) (ms : ℚ) :
    (∀ r ∈ matchResumeToJobs rt rs jobs tn ms,
        ms ≤ r.score ∧ r.category = categorize_score r.score) ∧
    (∀ (i : ℕ) (r : MatchResult),
        (matchResumeToJobs rt rs jobs tn ms)[i]? = some r → r.rank = i + 1) ∧
    (∀ (i j : ℕ) (ra rb : MatchResult), i ≤ j →
        (matchResumeToJobs rt rs jobs tn ms)[i]? = some ra →
        (matchResumeToJobs rt rs jobs tn ms)[j]? = some rb →
        rb.score ≤ ra.score) := by
  refine ⟨?_, ?_, ?_⟩
  · intro r hr
    rcases List.mem_iff_getElem?.mp hr with ⟨i, hi⟩
    exact matchResumeToJobs_score_mem rt rs jobs tn ms i r hi
  · intro i r h
    exact matchResumeToJobs_rank_eq rt rs jobs tn ms i r h
  · intro i j ra rb hij ha hb
    exact matchResumeToJobs_desc rt rs jobs tn ms i j ra rb hij ha hb

/-- Witness for claim C4 on a concrete two-job batch. -/
theorem claim_C4_output_contract_witness :
    ((matchResumeToJobs sampleResume [] sampleJobs 15 0)[0]? =
      some ⟨Job.good sampleJob, 10, 1, "Basic Match"⟩) ∧
    (⟨Job.good sampleJob, 10, 1, "Basic Match"⟩ : MatchResult).rank = 0 + 1 := by
  have h0 : (matchResumeToJobs sampleResume [] sampleJobs 15 0)[0]? =
      some ⟨Job.good sampleJob, 10, 1, "Basic Match"⟩ := by
    with_unfolding_all decide
  exact ⟨h0, (claim_C4_output_contract sampleResume [] sampleJobs 15 0).2.1 0 _ h0⟩

/-- Claim C3 is false as stated: two identical jobs tie, the two tied
rows compare with equal scores in both directions but their ranks are
the distinct positions, so the stated equivalence fails. -/
theorem claim_C3_counterexample :
    ¬ (∀ A ∈ matchResumeToJobs sampleResume [] sampleJobs 15 0,
        ∀ B ∈ matchResumeToJobs sampleResume [] sampleJobs 15 0,
          (A.rank < B.rank ↔ B.score ≤ A.score)) := by
  with_unfolding_all decide

/-- Claim C3 amended: along the output of match_resume_to_jobs, a
smaller rank implies a score at least as large, and a strictly larger
score implies a smaller rank; the equivalence of the claim fails only
on tied scores. -/
theorem claim_C3_amended (rt : String) (rs : List String)
    (jobs : List Job) (tn : ℕ) (ms : ℚ) (A B : MatchResult)
    (hA : A ∈ matchResumeToJobs rt rs jobs tn ms)
    (hB : B ∈ matchResumeToJobs rt rs jobs tn ms) :
    (A.rank < B.rank → B.score ≤ A.score) ∧
    (B.score < A.score → A.rank < B.rank) := by
  rcases List.mem_iff_getElem?.mp hA with ⟨i, hi⟩
  rcases List.mem_iff_getElem?.mp hB with ⟨j, hj⟩
  have hrA := matchResumeToJobs_rank_eq rt rs jobs tn ms i A hi
  have hrB := matchResumeToJobs_rank_eq rt rs jobs tn ms j B hj
  constructor
  · intro hrank
    have hij : i ≤ j := by omega
    exact matchResumeToJobs_desc rt rs jobs tn ms i j A B hij hi hj
  · intro hscore
    by_contra hcon
    have hji : j ≤ i := by omega
    have := matchResumeToJobs_desc rt rs jobs tn ms j i B A hji hj hi
    exact absurd hscore (not_lt.mpr this)

/-- Witness for the amended claim C3 on the concrete tied batch. -/
theorem claim_C3_amended_witness :
    ((⟨Job.good sampleJob, 10, 1, "Basic Match"⟩ : MatchResult).rank <
        (⟨Job.good sampleJob, 10, 2, "Basic Match"⟩ : MatchResult).rank →
      (⟨Job.good sampleJob, 10, 2, "Basic Match"⟩ : MatchResult).score ≤
        (⟨Job.good sampleJob, 10, 1, "Basic Match"⟩ : MatchResult).score) ∧
    ((⟨Job.good sampleJob, 10, 2, "Basic Match"⟩ : MatchResult).score <
        (⟨Job.good sampleJob, 10, 1, "Basic Match"⟩ : MatchResult).score →
      (⟨Job.good sampleJob, 10, 1, "Basic Match"⟩ : MatchResult).rank <
        (⟨Job.good sampleJob, 10, 2, "Basic Match"⟩ : MatchResult).rank) :=
  claim_C3_amended sampleResume [] sampleJobs 15 0 _ _
    (by with_unfolding_all decide) (by with_unfolding_all decide)
